import Mathlib

/-!
Formal model of the contract-analytics pipeline in `src/server.py`
(FastMCP Salesforce contract assistant).

The pipeline `_get_processed_data` fetches nested records, flattens and
renames them, coerces field types (numbers via `pd.to_numeric(errors =
coerce)`, dates via `pd.to_datetime(errors = coerce)`), derives temporal
columns, filters on account-code non-nullity and a year range, and sorts by
(account code ascending, year descending, month descending).  The analytics
tools read only from this normalised dataset.

Modelling conventions:
* Raw numeric leaves are `Option ℚ`: `none` is the result of a null or
  unparseable input after `pd.to_numeric(errors = coerce)` (NaN), `some q`
  a successfully parsed number.  Prices are modelled as exact rationals.
* Raw dates are `Option SimpleDate`: `none` is NaT after
  `pd.to_datetime(errors = coerce)`.
* Python `str.strip` / `str.lower` are modelled by char-list functions
  (`pyStrip`, `pyLower`) covering the ASCII range, so that they compute
  inside the kernel.
* Python `round(x, 2)` is modelled (`round2`) with `round` on ℚ, ignoring
  binary-float representation and its half-to-even tie rule; no theorem
  below depends on the tie rule.
* The pandas multi-column `sort_values` (which is implemented by a stable
  lexicographic sort when several keys are given) is modelled by
  `List.mergeSort` with the comparator `rowLe`.
-/

namespace SF

/-! ### String helpers (Python `strip` / `lower`, lexical comparison) -/

/-- ASCII whitespace recognised by Python `str.strip`. -/
def isSpaceChar (c : Char) : Bool :=
  c == ' ' || c == '\t' || c == '\n' || c == '\r' || c == '\x0b' || c == '\x0c'

/-- Lower-case an ASCII letter (model of Python `str.lower` per character). -/
def lowerChar (c : Char) : Char :=
  if 'A' ≤ c && c ≤ 'Z' then Char.ofNat (c.toNat + 32) else c

/-- Model of Python `str.strip()`. -/
def pyStrip (s : String) : String :=
  ⟨((s.data.dropWhile isSpaceChar).reverse.dropWhile isSpaceChar).reverse⟩

/-- Model of Python `str.lower()`. -/
def pyLower (s : String) : String :=
  ⟨s.data.map lowerChar⟩

/-- Three-way comparison from a linear order (kernel-computable). -/
def cmpLin {α : Type} [LinearOrder α] (a b : α) : Ordering :=
  if a < b then .lt else if b < a then .gt else .eq

/-- Lexicographic three-way comparison of char lists (code-point order,
exactly the order underlying `String.lt`). -/
def cmpCharList : List Char → List Char → Ordering
  | [], [] => .eq
  | [], _ :: _ => .lt
  | _ :: _, [] => .gt
  | a :: as, b :: bs => (cmpLin a b).then (cmpCharList as bs)

/-- Case-sensitive lexical three-way comparison of strings. -/
def cmpStr (a b : String) : Ordering := cmpCharList a.data b.data

/-- Boolean string order used to model Python `sorted` on strings. -/
def pyStrLe (a b : String) : Bool := decide (cmpStr a b ≠ Ordering.gt)

/-! ### Numeric and date helpers -/

/-- Truncation towards zero: numpy `astype(int)` on a float value. -/
def truncToZero (q : ℚ) : Int := if q < 0 then ⌈q⌉ else ⌊q⌋

/-- Model of Python `round(x, 2)` on exact rationals. -/
def round2 (q : ℚ) : ℚ := (round (q * 100) : ℚ) / 100

/-- Sum of a pandas numeric column: `.sum()` skips nulls (NaN) and returns
`0` on an empty or all-null column. -/
def sumOpt (l : List (Option ℚ)) : ℚ := (l.filterMap id).sum

/-- Count of distinct non-null values: pandas `.nunique()`. -/
def nunique {α : Type} [BEq α] (l : List (Option α)) : Nat :=
  ((l.filterMap id).eraseDups).length

/-- Parsed timestamp, the result of a successful `pd.to_datetime`. -/
structure SimpleDate where
  year : Int
  month : Int
  day : Int
deriving Repr, DecidableEq

/-- English month name, `strftime` with format `%B`. -/
def monthName : Int → String
  | 1 => "January" | 2 => "February" | 3 => "March" | 4 => "April"
  | 5 => "May" | 6 => "June" | 7 => "July" | 8 => "August"
  | 9 => "September" | 10 => "October" | 11 => "November" | 12 => "December"
  | _ => ""

/-- Zero-padded two-digit rendering for day and month fields. -/
def pad2 (n : Int) : String :=
  if 0 ≤ n ∧ n < 10 then "0" ++ toString n else toString n

/-- Display date `DD/MM/YYYY`, `strftime` with format `%d/%m/%Y`. -/
def formatDMY (d : SimpleDate) : String :=
  pad2 d.day ++ "/" ++ pad2 d.month ++ "/" ++ toString d.year

/-! ### Data model -/

/-- One fetched record after field mapping and leaf coercion: each field of
the SOQL select list of `_get_processed_data`, with numeric leaves already
carried through `pd.to_numeric(errors = coerce)` (`none` = null or
unparseable) and the contract created-date through
`pd.to_datetime(errors = coerce)` (`none` = null or unparseable). -/
structure RawRecord where
  name : Option String
  accountCode : Option String
  stoneColorType : Option String
  stockKeepingUnit : Option String
  family : Option String
  segment : Option String
  createdDate : Option SimpleDate
  contractName : Option String
  productDiscription : Option String
  length : Option ℚ
  width : Option ℚ
  height : Option ℚ
  quantity : Option ℚ
  crates : Option ℚ
  m2 : Option ℚ
  m3 : Option ℚ
  tons : Option ℚ
  cont : Option ℚ
  salesPrice : Option ℚ
  chargeUnitPI : Option String
  totalPriceUSD : Option ℚ
deriving Repr, DecidableEq

/-- One row of the normalised dataset (`df_export` in
`_get_processed_data`), one field per exported column. -/
structure CanonicalRow where
  accountCode : Option String
  stoneColorType : Option String
  productSKU : Option String
  contractProductName : Option String
  year : Option Int
  month : Option Int
  quarter : Option Int
  monthNameCol : Option String
  weekOfYear : Option Int
  productDescription : Option String
  length : Option ℚ
  width : Option ℚ
  height : Option ℚ
  quantity : Int
  crates : Option ℚ
  m2 : Option ℚ
  m3 : Option ℚ
  tons : Option ℚ
  cont : Option ℚ
  salesPrice : Option ℚ
  totalPriceUSD : Option ℚ
  chargeUnit : Option String
  productFamily : Option String
  segment : Option String
  contractNameCol : Option String
  createdDateDisplay : Option String
  createdDateRaw : Option SimpleDate
deriving Repr, DecidableEq

/-! ### The transform step of `_get_processed_data` -/

/-- Build one `df_export` row from one record.  `isoweek` abstracts the
ISO-8601 week computation of `dt.isocalendar().week`, which no claim
touches.  The quantity column follows
`pd.to_numeric(errors = coerce).fillna(0).astype(int)`. -/
def toCanonicalRow (isoweek : SimpleDate → Int) (r : RawRecord) : CanonicalRow where
  accountCode := r.accountCode
  stoneColorType := r.stoneColorType
  productSKU := r.stockKeepingUnit
  contractProductName := r.name
  year := r.createdDate.map (fun d => d.year)
  month := r.createdDate.map (fun d => d.month)
  quarter := r.createdDate.map (fun d => (d.month + 2) / 3)
  monthNameCol := r.createdDate.map (fun d => monthName d.month)
  weekOfYear := r.createdDate.map isoweek
  productDescription := r.productDiscription
  length := r.length
  width := r.width
  height := r.height
  quantity := truncToZero (r.quantity.getD 0)
  crates := r.crates
  m2 := r.m2
  m3 := r.m3
  tons := r.tons
  cont := r.cont
  salesPrice := r.salesPrice
  totalPriceUSD := r.totalPriceUSD
  chargeUnit := r.chargeUnitPI
  productFamily := r.family
  segment := r.segment
  contractNameCol := r.contractName
  createdDateDisplay := r.createdDate.map formatDMY
  createdDateRaw := r.createdDate

/-- The year-range filter `(YEAR >= 2015) & (YEAR <= current_year)`.  In
pandas a NaN year fails both comparisons, so a row with a null year is
dropped. -/
def yearFilter (currentYear : Int) (r : CanonicalRow) : Bool :=
  match r.year with
  | none => false
  | some y => decide (2015 ≤ y) && decide (y ≤ currentYear)

/-- The `dropna(subset = [account code])` filter. -/
def accountNotNull (r : CanonicalRow) : Bool := r.accountCode.isSome

/-! ### The sort step: account ascending, year descending, month descending -/

/-- Account-code key comparison, ascending, nulls last (pandas
`na_position = last`; unreachable after `dropna`). -/
def cmpOptStr : Option String → Option String → Ordering
  | none, none => .eq
  | none, some _ => .gt
  | some _, none => .lt
  | some a, some b => cmpStr a b

/-- Descending integer key comparison, nulls last. -/
def cmpOptIntDesc : Option Int → Option Int → Ordering
  | none, none => .eq
  | none, some _ => .gt
  | some _, none => .lt
  | some a, some b => cmpLin b a

/-- The three sort keys of `sort_values`. -/
def rowKey (r : CanonicalRow) : Option String × Option Int × Option Int :=
  (r.accountCode, r.year, r.month)

/-- Lexicographic comparison of sort keys: account code ascending, then
year descending, then month descending. -/
def keyCmp (k₁ k₂ : Option String × Option Int × Option Int) : Ordering :=
  (cmpOptStr k₁.1 k₂.1).then ((cmpOptIntDesc k₁.2.1 k₂.2.1).then (cmpOptIntDesc k₁.2.2 k₂.2.2))

/-- Row comparator handed to the stable sort. -/
def rowLe (a b : CanonicalRow) : Bool := decide (keyCmp (rowKey a) (rowKey b) ≠ Ordering.gt)

/-- The whole pipeline after the fetch: transform each record, filter on
year range, drop null account codes, stable-sort by (account code
ascending, year descending, month descending).  `currentYear` is
`datetime.now().year` at the moment the pipeline runs. -/
def _get_processed_data (isoweek : SimpleDate → Int) (currentYear : Int)
    (records : List RawRecord) : List CanonicalRow :=
  ((records.map (toCanonicalRow isoweek)).filter (yearFilter currentYear)
    |>.filter accountNotNull).mergeSort rowLe

/-! ### Account filtering shared by the tools -/

/-- Pandas `astype(str)` renders a NaN cell as the string `nan`. -/
def pandasStr : Option String → String
  | some s => s
  | none => "nan"

/-- Model of `_filter_by_account`: case-insensitive, whitespace-trimmed
equality on the account-code column (the early return on an empty frame
gives the same result as filtering it). -/
def _filter_by_account (df : List CanonicalRow) (account_code : String) : List CanonicalRow :=
  df.filter (fun r =>
    decide (pyLower (pyStrip (pandasStr r.accountCode)) = pyLower (pyStrip account_code)))

/-! ### Tool 1: `get_all_customers_list` -/

/-- Result dictionary of `get_all_customers_list`; an absent key is
modelled as `none` (`0` for the count). -/
structure CustomersListResult where
  success : Bool
  count : Nat
  customers : List String
  message : Option String
  error : Option String
deriving Repr, DecidableEq

/-- Model of `get_all_customers_list`: unique account codes (first
occurrence order, pandas `unique`), nulls removed, then Python `sorted`. -/
def get_all_customers_list (df : List CanonicalRow) : CustomersListResult :=
  if df.isEmpty then
    { success := true, count := 0, customers := []
      message := some "No customers found", error := none }
  else
    let customers := ((df.map (fun r => r.accountCode)).eraseDups).filterMap id
    let customers := customers.mergeSort pyStrLe
    { success := true, count := customers.length, customers := customers
      message := none, error := none }

/-! ### Tool 2: `get_customer_products` -/

/-- One entry of the `products` list of `get_customer_products`. -/
structure ProductEntry where
  product_sku : Option String
  product_family : Option String
  stone_color_type : Option String
  product_description : Option String
  length : Option ℚ
  width : Option ℚ
  height : Option ℚ
  segment : Option String
  quantity : Int
  m2 : Option ℚ
  m3 : Option ℚ
  tons : Option ℚ
  containers : Option ℚ
  sales_price : Option ℚ
  total_price_usd : Option ℚ
  charge_unit : Option String
  order_date : Option String
  year : Option Int
  month : Option Int
  quarter : Option Int
  contract_name : Option String
deriving Repr, DecidableEq

/-- The per-row dictionary built inside `get_customer_products`. -/
def rowToProductEntry (r : CanonicalRow) : ProductEntry where
  product_sku := r.productSKU
  product_family := r.productFamily
  stone_color_type := r.stoneColorType
  product_description := r.productDescription
  length := r.length
  width := r.width
  height := r.height
  segment := r.segment
  quantity := r.quantity
  m2 := r.m2
  m3 := r.m3
  tons := r.tons
  containers := r.cont
  sales_price := r.salesPrice
  total_price_usd := r.totalPriceUSD
  charge_unit := r.chargeUnit
  order_date := r.createdDateDisplay
  year := r.year
  month := r.month
  quarter := r.quarter
  contract_name := r.contractNameCol

/-- The `summary` sub-dictionary of `get_customer_products`.  The column
sums skip nulls, so `float(total_value) if pd.notna(total_value) else 0`
always takes the first branch and is plain `sumOpt`. -/
structure ProductsSummary where
  unique_product_skus : Nat
  unique_product_families : Nat
  total_quantity : Int
  total_value_usd : ℚ
deriving Repr, DecidableEq

/-- Result dictionary of `get_customer_products`; keys absent in a given
return path are `none`. -/
structure ProductsResult where
  success : Bool
  error : Option String
  account_code : Option String
  year : Option Int
  count : Nat
  summary : Option ProductsSummary
  products : List ProductEntry
  message : Option String
deriving Repr, DecidableEq

/-- Python truthiness of the optional `year` argument: the filter block
`if year:` runs only for a present, non-zero year. -/
def yearTruthy : Option Int → Bool
  | none => false
  | some y => y != 0

/-- Rendering of the optional year inside the f-string message. -/
def optIntStr : Option Int → String
  | none => "None"
  | some y => toString y

/-- The success payload of `get_customer_products` for an already
account-and-year-filtered list of rows. -/
def productsSuccess (account_code : String) (year : Option Int)
    (rows : List CanonicalRow) : ProductsResult :=
  let products := rows.map rowToProductEntry
  { success := true, error := none
    account_code := some account_code, year := year
    count := products.length
    summary := some
      { unique_product_skus := nunique (rows.map (fun r => r.productSKU))
        unique_product_families := nunique (rows.map (fun r => r.productFamily))
        total_quantity := (rows.map (fun r => r.quantity)).sum
        total_value_usd := sumOpt (rows.map (fun r => r.totalPriceUSD)) }
    products := products, message := none }

/-- Model of `get_customer_products` given the processed dataset. -/
def get_customer_products (df : List CanonicalRow) (account_code : String)
    (year : Option Int) : ProductsResult :=
  if pyStrip account_code = "" then
    { success := false, error := some "Account code cannot be empty"
      account_code := none, year := none, count := 0
      summary := none, products := [], message := none }
  else
    let df_filtered := _filter_by_account df account_code
    if df_filtered.isEmpty then
      { success := true, error := none, account_code := none, year := none
        count := 0, summary := none, products := []
        message := some ("No products found for account " ++ account_code) }
    else
      if yearTruthy year then
        let df_year := df_filtered.filter (fun r => decide (r.year = year))
        if df_year.isEmpty then
          { success := true, error := none, account_code := none, year := none
            count := 0, summary := none, products := []
            message := some ("No products found for account " ++ account_code
              ++ " in year " ++ optIntStr year) }
        else productsSuccess account_code year df_year
      else productsSuccess account_code year df_filtered

/-! ### Tool `get_contract_details_by_account` -/

/-- Result dictionary of `get_contract_details_by_account`. -/
structure ContractDetailsResult where
  success : Bool
  error : Option String
  count : Nat
  data : List CanonicalRow
  message : Option String
  account_code : Option String
deriving Repr, DecidableEq

/-- Model of `get_contract_details_by_account` given the processed
dataset (the NaN-to-None JSON substitution is representation only). -/
def get_contract_details_by_account (df : List CanonicalRow)
    (account_code : String) : ContractDetailsResult :=
  if pyStrip account_code = "" then
    { success := false, error := some "Account code cannot be empty"
      count := 0, data := [], message := none, account_code := none }
  else if df.isEmpty then
    { success := true, error := none, count := 0, data := []
      message := some ("No data found (empty source) for account code " ++ account_code)
      account_code := none }
  else
    let filtered_df := _filter_by_account df account_code
    if filtered_df.isEmpty then
      { success := true, error := none, count := 0, data := []
        message := some ("No data found for account code " ++ account_code)
        account_code := none }
    else
      { success := true, error := none, count := filtered_df.length
        data := filtered_df, message := none, account_code := some account_code }

/-! ### Tool 5: `get_customer_order_patterns` -/

/-- One entry of the by-quarter pattern list.  The `avg_order_value`
column mean is omitted; no theorem refers to it. -/
structure QuarterEntry where
  quarter : String
  total_orders : Nat
  total_quantity : Int
  total_value_usd : ℚ
  percentage_of_annual_orders : ℚ
deriving Repr, DecidableEq

/-- One entry of the by-month pattern list. -/
structure MonthEntry where
  month : Int
  month_name : String
  total_orders : Nat
  total_quantity : Int
  total_value_usd : ℚ
  percentage_of_annual_orders : ℚ
deriving Repr, DecidableEq

/-- Result of `get_customer_order_patterns`; the `summary` block
(top months, top quarters, frequency) is omitted, no theorem refers
to it. -/
structure OrderPatternsResult where
  success : Bool
  error : Option String
  message : Option String
  by_quarter : List QuarterEntry
  by_month : List MonthEntry
deriving Repr, DecidableEq

/-- Model of `get_customer_order_patterns`.  Quarter percentages are
filled by a second pass (as in the code); month percentages are computed
at construction.  `total_orders` for the percentage denominators is
`len(df_filtered)`, the size of the account-filtered dataset. -/
def get_customer_order_patterns (df : List CanonicalRow)
    (account_code : String) : OrderPatternsResult :=
  if pyStrip account_code = "" then
    { success := false, error := some "Account code cannot be empty"
      message := none, by_quarter := [], by_month := [] }
  else
    let df_filtered := _filter_by_account df account_code
    if df_filtered.isEmpty then
      { success := true, error := none
        message := some ("No data found for account " ++ account_code)
        by_quarter := [], by_month := [] }
    else
      let total_orders := df_filtered.length
      let quarter_base := (List.range' 1 4).filterMap (fun q =>
        let quarter_df := df_filtered.filter (fun r => decide (r.quarter = some (q : Int)))
        if quarter_df.isEmpty then none else some
          ({ quarter := "Q" ++ toString q
             total_orders := quarter_df.length
             total_quantity := (quarter_df.map (fun r => r.quantity)).sum
             total_value_usd := sumOpt (quarter_df.map (fun r => r.totalPriceUSD))
             percentage_of_annual_orders := (0 : ℚ) } : QuarterEntry))
      let by_quarter := quarter_base.map (fun e =>
        { e with percentage_of_annual_orders :=
            round2 ((e.total_orders : ℚ) / (total_orders : ℚ) * 100) })
      let by_month := (List.range' 1 12).filterMap (fun m =>
        let month_df := df_filtered.filter (fun r => decide (r.month = some (m : Int)))
        if month_df.isEmpty then none else some
          ({ month := (m : Int)
             month_name := monthName (m : Int)
             total_orders := month_df.length
             total_quantity := (month_df.map (fun r => r.quantity)).sum
             total_value_usd := sumOpt (month_df.map (fun r => r.totalPriceUSD))
             percentage_of_annual_orders :=
               round2 ((month_df.length : ℚ) / (total_orders : ℚ) * 100) } : MonthEntry))
      { success := true, error := none, message := none
        by_quarter := by_quarter, by_month := by_month }

/-! ### Tool 10: `get_customer_seasonal_analysis` -/

/-- The season bucketing function defined inside the tool.  A null month
compares false against every list (as NaN does in Python `in`), landing in
the final `else` branch. -/
def get_season (month : Int) : String :=
  if month = 12 ∨ month = 1 ∨ month = 2 then "Winter"
  else if month = 3 ∨ month = 4 ∨ month = 5 then "Spring"
  else if month = 6 ∨ month = 7 ∨ month = 8 then "Summer"
  else "Fall"

/-- Season of a row, the `Season` column added by the tool. -/
def rowSeason (r : CanonicalRow) : String :=
  match r.month with
  | some m => get_season m
  | none => "Fall"

/-- One entry of the seasonal pattern list.  The per-season top-product
list is omitted; no theorem refers to it. -/
structure SeasonEntry where
  season : String
  total_orders : Nat
  total_quantity : Int
  total_value_usd : ℚ
  percentage_of_annual_orders : ℚ
deriving Repr, DecidableEq

/-- Result of `get_customer_seasonal_analysis`; the `peak_season` field is
omitted, no theorem refers to it. -/
structure SeasonalResult where
  success : Bool
  error : Option String
  message : Option String
  seasonal_patterns : List SeasonEntry
deriving Repr, DecidableEq

/-- Model of `get_customer_seasonal_analysis`: entries built with a zero
percentage, then a second pass fills
`round(total_orders / len(df_filtered) * 100, 2)`. -/
def get_customer_seasonal_analysis (df : List CanonicalRow)
    (account_code : String) : SeasonalResult :=
  if pyStrip account_code = "" then
    { success := false, error := some "Account code cannot be empty"
      message := none, seasonal_patterns := [] }
  else
    let df_filtered := _filter_by_account df account_code
    if df_filtered.isEmpty then
      { success := true, error := none
        message := some ("No data found for account " ++ account_code)
        seasonal_patterns := [] }
    else
      let base := (["Spring", "Summer", "Fall", "Winter"]).filterMap (fun s =>
        let season_df := df_filtered.filter (fun r => decide (rowSeason r = s))
        if season_df.isEmpty then none else some
          ({ season := s
             total_orders := season_df.length
             total_quantity := (season_df.map (fun r => r.quantity)).sum
             total_value_usd := sumOpt (season_df.map (fun r => r.totalPriceUSD))
             percentage_of_annual_orders := (0 : ℚ) } : SeasonEntry))
      let seasonal := base.map (fun e =>
        { e with percentage_of_annual_orders :=
            round2 ((e.total_orders : ℚ) / (df_filtered.length : ℚ) * 100) })
      { success := true, error := none, message := none
        seasonal_patterns := seasonal }

/-! ### Tool 9: `get_customer_summary_stats` -/

/-- The `summary` block of `get_customer_summary_stats` (first/last order
dates, product diversity, top products, common dimensions and the yearly
breakdown are omitted; no theorem refers to them). -/
structure SummaryStats where
  total_orders : Nat
  total_quantity : Int
  total_value_usd : ℚ
  avg_order_value_usd : ℚ
  years_active : Nat
  avg_orders_per_year : ℚ
deriving Repr, DecidableEq

/-- Result of `get_customer_summary_stats`. -/
structure SummaryStatsResult where
  success : Bool
  error : Option String
  message : Option String
  summary : Option SummaryStats
deriving Repr, DecidableEq

/-- The guarded average of the code:
`avg_order_value = total_value / total_orders if total_orders > 0 else 0`.
The denominator is the number of rows, not the quantity sum. -/
def avg_order_value (df_filtered : List CanonicalRow) : ℚ :=
  if 0 < df_filtered.length then
    sumOpt (df_filtered.map (fun r => r.totalPriceUSD)) / (df_filtered.length : ℚ)
  else 0

/-- Model of `get_customer_summary_stats`. -/
def get_customer_summary_stats (df : List CanonicalRow)
    (account_code : String) : SummaryStatsResult :=
  if pyStrip account_code = "" then
    { success := false, error := some "Account code cannot be empty"
      message := none, summary := none }
  else
    let df_filtered := _filter_by_account df account_code
    if df_filtered.isEmpty then
      { success := true, error := none
        message := some ("No data found for account " ++ account_code)
        summary := none }
    else
      let total_orders := df_filtered.length
      let total_value := sumOpt (df_filtered.map (fun r => r.totalPriceUSD))
      let years_active := nunique (df_filtered.map (fun r => r.year))
      { success := true, error := none, message := none
        summary := some
          { total_orders := total_orders
            total_quantity := (df_filtered.map (fun r => r.quantity)).sum
            total_value_usd := round2 total_value
            avg_order_value_usd := round2 (avg_order_value df_filtered)
            years_active := years_active
            avg_orders_per_year :=
              if 0 < years_active then round2 ((total_orders : ℚ) / (years_active : ℚ))
              else 0 } }

/-- Modelled from the spec: the derived-ratio formula the specification
states for the average price of a group (`total_price_sum / quantity_sum`
when `quantity_sum > 0`, else `0`), kept separate so it can be compared
against the code's `avg_order_value`. -/
def claimedAvgUnitPrice (df_filtered : List CanonicalRow) : ℚ :=
  if 0 < (df_filtered.map (fun r => r.quantity)).sum then
    sumOpt (df_filtered.map (fun r => r.totalPriceUSD))
      / (((df_filtered.map (fun r => r.quantity)).sum : Int) : ℚ)
  else 0

/-! ### Spec-modelled tool: `get_top_items_summary` -/

/-- The closed set of valid grouping-field names of the spec (§6). -/
def validGroupingFields : List String :=
  ["account code", "product family", "product SKU", "stone color type"]

/-- Modelled from the spec: the grouping-field accessor behind
`get_top_items_summary`, which is referenced by the spec (§4.5, §6, §8
scenario) but absent from `src/`. -/
def groupingValue (field : String) (r : CanonicalRow) : Option String :=
  if field = "account code" then r.accountCode
  else if field = "product family" then r.productFamily
  else if field = "product SKU" then r.productSKU
  else if field = "stone color type" then r.stoneColorType
  else none

/-- One group of the spec-modelled top-items aggregation. -/
structure TopItemsGroup where
  key : String
  total_orders : Nat
  total_quantity : Int
  total_value_usd : ℚ
deriving Repr, DecidableEq

/-- Result of the spec-modelled `get_top_items_summary`. -/
structure TopItemsResult where
  success : Bool
  error : Option String
  valid_fields : Option (List String)
  groups : List TopItemsGroup
deriving Repr, DecidableEq

/-- Modelled from the spec: `get_top_items_summary` is absent from `src/`;
per the spec (§4.5 error handling, §6, §8 scenario) an invalid
grouping-field name is rejected before the dataset is touched, with a
failure result enumerating the valid field names, and a valid name yields
a single-dimension grouping over the distinct non-null key values fetched
from the record source.  The would-be fetch result is the `records`
argument, so "no fetch performed" is provable as independence of the
result from `records`. -/
def get_top_items_summary (isoweek : SimpleDate → Int) (currentYear : Int)
    (records : List RawRecord) (grouping_field : String) : TopItemsResult :=
  if grouping_field ∈ validGroupingFields then
    let df := _get_processed_data isoweek currentYear records
    let keys := (df.map (groupingValue grouping_field)).eraseDups.filterMap id
    let groups := keys.map (fun k =>
      let group_df := df.filter (fun r => decide (groupingValue grouping_field r = some k))
      { key := k
        total_orders := group_df.length
        total_quantity := (group_df.map (fun r => r.quantity)).sum
        total_value_usd := sumOpt (group_df.map (fun r => r.totalPriceUSD))
        : TopItemsGroup })
    { success := true, error := none, valid_fields := none, groups := groups }
  else
    { success := false
      error := some "Invalid grouping field"
      valid_fields := some validGroupingFields
      groups := [] }

/-! ### Ordering combinator lemmas -/

theorem then_eq_eq {o₁ o₂ : Ordering} : o₁.then o₂ = .eq ↔ o₁ = .eq ∧ o₂ = .eq := by
  cases o₁ <;> simp [Ordering.then]

theorem then_eq_lt {o₁ o₂ : Ordering} :
    o₁.then o₂ = .lt ↔ o₁ = .lt ∨ (o₁ = .eq ∧ o₂ = .lt) := by
  cases o₁ <;> simp [Ordering.then]

theorem then_eq_gt {o₁ o₂ : Ordering} :
    o₁.then o₂ = .gt ↔ o₁ = .gt ∨ (o₁ = .eq ∧ o₂ = .gt) := by
  cases o₁ <;> simp [Ordering.then]

theorem then_swap (o₁ o₂ : Ordering) : (o₁.then o₂).swap = o₁.swap.then o₂.swap := by
  cases o₁ <;> cases o₂ <;> rfl

theorem swap_eq_gt {o : Ordering} : o.swap = .gt ↔ o = .lt := by
  cases o <;> simp [Ordering.swap]

theorem swap_eq_lt {o : Ordering} : o.swap = .lt ↔ o = .gt := by
  cases o <;> simp [Ordering.swap]

/-! ### Lemmas about `cmpLin` -/

theorem cmpLin_lt_iff {α : Type} [LinearOrder α] {a b : α} : cmpLin a b = .lt ↔ a < b := by
  unfold cmpLin
  split
  · next h => simp [h]
  · split
    · next h => simp [lt_asymm h]
    · next h _ => simp [h]

theorem cmpLin_eq_iff {α : Type} [LinearOrder α] {a b : α} : cmpLin a b = .eq ↔ a = b := by
  unfold cmpLin
  split
  · next h => simp [ne_of_lt h]
  · split
    · next h => simp [ne_of_gt h]
    · next h₁ h₂ => simp [le_antisymm (le_of_not_lt h₂) (le_of_not_lt h₁)]

theorem cmpLin_swap {α : Type} [LinearOrder α] (a b : α) : (cmpLin a b).swap = cmpLin b a := by
  unfold cmpLin
  rcases lt_trichotomy a b with h | h | h
  · simp [h, lt_asymm h, Ordering.swap]
  · simp [h, lt_irrefl, Ordering.swap]
  · simp [h, lt_asymm h, Ordering.swap]

/-! ### Lemmas about `cmpCharList` and `cmpStr` -/

theorem lexConsIff {α : Type} {r : α → α → Prop} {a b : α} {as bs : List α} :
    List.Lex r (a :: as) (b :: bs) ↔ r a b ∨ (a = b ∧ List.Lex r as bs) := by
  constructor
  · intro h
    cases h with
    | cons h => exact Or.inr ⟨rfl, h⟩
    | rel h => exact Or.inl h
  · rintro (h | ⟨rfl, h⟩)
    · exact List.Lex.rel h
    · exact List.Lex.cons h

theorem cmpCharList_eq_iff : ∀ (as bs : List Char), cmpCharList as bs = .eq ↔ as = bs
  | [], [] => by simp [cmpCharList]
  | [], _ :: _ => by simp [cmpCharList]
  | _ :: _, [] => by simp [cmpCharList]
  | a :: as, b :: bs => by
    rw [cmpCharList, then_eq_eq]
    simp [cmpLin_eq_iff, cmpCharList_eq_iff as bs]

theorem cmpCharList_lt_iff : ∀ (as bs : List Char),
    cmpCharList as bs = .lt ↔ List.Lex (· < ·) as bs
  | [], [] => by
    constructor
    · intro h; simp [cmpCharList] at h
    · intro h; nomatch h
  | [], b :: bs => by
    constructor
    · intro _; exact List.Lex.nil
    · intro _; rfl
  | _ :: _, [] => by
    constructor
    · intro h; simp [cmpCharList] at h
    · intro h; nomatch h
  | a :: as, b :: bs => by
    rw [cmpCharList, then_eq_lt, lexConsIff, cmpLin_lt_iff, cmpLin_eq_iff,
      cmpCharList_lt_iff as bs]

theorem cmpCharList_swap : ∀ (as bs : List Char), (cmpCharList as bs).swap = cmpCharList bs as
  | [], [] => rfl
  | [], _ :: _ => rfl
  | _ :: _, [] => rfl
  | a :: as, b :: bs => by
    rw [cmpCharList, cmpCharList, then_swap, cmpLin_swap, cmpCharList_swap as bs]

theorem cmpCharList_lt_trans : ∀ (as bs cs : List Char),
    cmpCharList as bs = .lt → cmpCharList bs cs = .lt → cmpCharList as cs = .lt
  | [], [], _, h₁, _ => by simp [cmpCharList] at h₁
  | [], _ :: _, [], _, h₂ => by simp [cmpCharList] at h₂
  | [], _ :: _, _ :: _, _, _ => by simp [cmpCharList]
  | _ :: _, [], _, h₁, _ => by simp [cmpCharList] at h₁
  | _ :: _, _ :: _, [], _, h₂ => by simp [cmpCharList] at h₂
  | a :: as, b :: bs, c :: cs, h₁, h₂ => by
    rw [cmpCharList, then_eq_lt, cmpLin_lt_iff, cmpLin_eq_iff] at h₁ h₂ ⊢
    rcases h₁ with h₁ | ⟨rfl, h₁⟩
    · rcases h₂ with h₂ | ⟨rfl, h₂⟩
      · exact Or.inl (lt_trans h₁ h₂)
      · exact Or.inl h₁
    · rcases h₂ with h₂ | ⟨rfl, h₂⟩
      · exact Or.inl h₂
      · exact Or.inr ⟨rfl, cmpCharList_lt_trans as bs cs h₁ h₂⟩

theorem cmpStr_eq_iff {a b : String} : cmpStr a b = .eq ↔ a = b := by
  rw [cmpStr, cmpCharList_eq_iff]
  constructor
  · intro h
    cases a; cases b
    exact congrArg String.mk h
  · intro h; rw [h]

theorem cmpStr_lt_iff {a b : String} : cmpStr a b = .lt ↔ a < b := by
  rw [cmpStr, cmpCharList_lt_iff]
  exact (String.lt_iff_toList_lt).symm

theorem cmpStr_swap (a b : String) : (cmpStr a b).swap = cmpStr b a :=
  cmpCharList_swap a.data b.data

theorem cmpStr_gt_iff {a b : String} : cmpStr a b = .gt ↔ b < a := by
  rw [← @cmpStr_lt_iff b a, ← cmpStr_swap a b, swap_eq_lt]

theorem cmpStr_lt_trans {a b c : String} :
    cmpStr a b = .lt → cmpStr b c = .lt → cmpStr a c = .lt :=
  cmpCharList_lt_trans a.data b.data c.data

/-! ### Lemmas about the optional key comparators -/

theorem cmpOptStr_eq_iff : ∀ {x y : Option String}, cmpOptStr x y = .eq ↔ x = y
  | none, none => by simp [cmpOptStr]
  | none, some _ => by simp [cmpOptStr]
  | some _, none => by simp [cmpOptStr]
  | some a, some b => by simp [cmpOptStr, cmpStr_eq_iff]

theorem cmpOptStr_swap : ∀ (x y : Option String), (cmpOptStr x y).swap = cmpOptStr y x
  | none, none => rfl
  | none, some _ => rfl
  | some _, none => rfl
  | some a, some b => cmpStr_swap a b

theorem cmpOptStr_lt_trans : ∀ {x y z : Option String},
    cmpOptStr x y = .lt → cmpOptStr y z = .lt → cmpOptStr x z = .lt
  | none, none, _, h₁, _ => by simp [cmpOptStr] at h₁
  | none, some _, _, h₁, _ => by simp [cmpOptStr] at h₁
  | some _, none, none, _, h₂ => by simp [cmpOptStr] at h₂
  | some _, none, some _, _, h₂ => by simp [cmpOptStr] at h₂
  | some _, some _, none, _, _ => by simp [cmpOptStr]
  | some _, some _, some _, h₁, h₂ => cmpStr_lt_trans h₁ h₂

theorem cmpOptIntDesc_eq_iff : ∀ {x y : Option Int}, cmpOptIntDesc x y = .eq ↔ x = y
  | none, none => by simp [cmpOptIntDesc]
  | none, some _ => by simp [cmpOptIntDesc]
  | some _, none => by simp [cmpOptIntDesc]
  | some a, some b => by
    simp [cmpOptIntDesc, cmpLin_eq_iff]
    exact eq_comm

theorem cmpOptIntDesc_swap : ∀ (x y : Option Int), (cmpOptIntDesc x y).swap = cmpOptIntDesc y x
  | none, none => rfl
  | none, some _ => rfl
  | some _, none => rfl
  | some a, some b => cmpLin_swap b a

theorem cmpOptIntDesc_lt_trans : ∀ {x y z : Option Int},
    cmpOptIntDesc x y = .lt → cmpOptIntDesc y z = .lt → cmpOptIntDesc x z = .lt
  | none, none, _, h₁, _ => by simp [cmpOptIntDesc] at h₁
  | none, some _, _, h₁, _ => by simp [cmpOptIntDesc] at h₁
  | some _, none, none, _, h₂ => by simp [cmpOptIntDesc] at h₂
  | some _, none, some _, _, h₂ => by simp [cmpOptIntDesc] at h₂
  | some _, some _, none, _, _ => by simp [cmpOptIntDesc]
  | some a, some b, some c, h₁, h₂ => by
    rw [cmpOptIntDesc, cmpLin_lt_iff] at h₁ h₂ ⊢
    exact lt_trans h₂ h₁

/-! ### Lemmas about `keyCmp` and `rowLe` -/

theorem keyCmp_eq_iff {k₁ k₂ : Option String × Option Int × Option Int} :
    keyCmp k₁ k₂ = .eq ↔ k₁ = k₂ := by
  obtain ⟨a₁, y₁, m₁⟩ := k₁
  obtain ⟨a₂, y₂, m₂⟩ := k₂
  rw [keyCmp, then_eq_eq, then_eq_eq]
  simp [cmpOptStr_eq_iff, cmpOptIntDesc_eq_iff, and_assoc]

theorem keyCmp_swap (k₁ k₂ : Option String × Option Int × Option Int) :
    (keyCmp k₁ k₂).swap = keyCmp k₂ k₁ := by
  rw [keyCmp, keyCmp, then_swap, then_swap, cmpOptStr_swap, cmpOptIntDesc_swap,
    cmpOptIntDesc_swap]

theorem keyCmp_lt_trans {k₁ k₂ k₃ : Option String × Option Int × Option Int} :
    keyCmp k₁ k₂ = .lt → keyCmp k₂ k₃ = .lt → keyCmp k₁ k₃ = .lt := by
  intro h₁ h₂
  rw [keyCmp, then_eq_lt] at h₁ h₂ ⊢
  rcases h₁ with h₁ | ⟨he₁, h₁⟩
  · rcases h₂ with h₂ | ⟨he₂, h₂⟩
    · exact Or.inl (cmpOptStr_lt_trans h₁ h₂)
    · rw [cmpOptStr_eq_iff] at he₂
      exact Or.inl (he₂ ▸ h₁)
  · rcases h₂ with h₂ | ⟨he₂, h₂⟩
    · rw [cmpOptStr_eq_iff] at he₁
      exact Or.inl (he₁ ▸ h₂)
    · rw [cmpOptStr_eq_iff] at he₁ he₂
      refine Or.inr ⟨by rw [cmpOptStr_eq_iff, he₁, he₂], ?_⟩
      rw [then_eq_lt] at h₁ h₂ ⊢
      rcases h₁ with h₁ | ⟨hy₁, h₁⟩
      · rcases h₂ with h₂ | ⟨hy₂, h₂⟩
        · exact Or.inl (cmpOptIntDesc_lt_trans h₁ h₂)
        · rw [cmpOptIntDesc_eq_iff] at hy₂
          exact Or.inl (hy₂ ▸ h₁)
      · rcases h₂ with h₂ | ⟨hy₂, h₂⟩
        · rw [cmpOptIntDesc_eq_iff] at hy₁
          exact Or.inl (hy₁ ▸ h₂)
        · rw [cmpOptIntDesc_eq_iff] at hy₁ hy₂
          exact Or.inr ⟨by rw [cmpOptIntDesc_eq_iff, hy₁, hy₂],
            cmpOptIntDesc_lt_trans h₁ h₂⟩

theorem keyCmp_gt_iff {k₁ k₂ : Option String × Option Int × Option Int} :
    keyCmp k₁ k₂ = .gt ↔ keyCmp k₂ k₁ = .lt := by
  rw [← keyCmp_swap k₁ k₂, swap_eq_lt]

theorem rowLe_iff {a b : CanonicalRow} :
    rowLe a b = true ↔ keyCmp (rowKey a) (rowKey b) ≠ .gt := by
  simp [rowLe]

theorem rowLe_trans : ∀ (a b c : CanonicalRow),
    rowLe a b = true → rowLe b c = true → rowLe a c = true := by
  intro a b c hab hbc
  rw [rowLe_iff] at hab hbc ⊢
  cases h₁ : keyCmp (rowKey a) (rowKey b) with
  | gt => exact absurd h₁ hab
  | eq =>
    rw [keyCmp_eq_iff] at h₁
    rw [h₁]
    exact hbc
  | lt =>
    cases h₂ : keyCmp (rowKey b) (rowKey c) with
    | gt => exact absurd h₂ hbc
    | eq =>
      rw [keyCmp_eq_iff] at h₂
      rw [← h₂]
      intro h
      rw [h] at h₁
      cases h₁
    | lt =>
      have := keyCmp_lt_trans h₁ h₂
      rw [this]
      intro h
      cases h

theorem rowLe_total : ∀ (a b : CanonicalRow), (rowLe a b || rowLe b a) = true := by
  intro a b
  rcases h : keyCmp (rowKey a) (rowKey b) with _ | _ | _ <;>
    simp only [rowLe, Bool.or_eq_true, decide_eq_true_eq]
  · exact Or.inl (by rw [h]; intro hc; cases hc)
  · exact Or.inl (by rw [h]; intro hc; cases hc)
  · refine Or.inr ?_
    rw [← keyCmp_swap, h]
    intro hc
    cases hc

/-! ### Lemmas about `pyStrLe` -/

theorem pyStrLe_iff {a b : String} : pyStrLe a b = true ↔ a ≤ b := by
  rw [pyStrLe, decide_eq_true_eq]
  constructor
  · intro h
    by_contra hlt
    rw [not_le] at hlt
    exact h (cmpStr_gt_iff.mpr hlt)
  · intro h hgt
    exact absurd h (not_le.mpr (cmpStr_gt_iff.mp hgt))

theorem pyStrLe_trans : ∀ (a b c : String),
    pyStrLe a b = true → pyStrLe b c = true → pyStrLe a c = true := by
  intro a b c hab hbc
  rw [pyStrLe_iff] at hab hbc ⊢
  exact le_trans hab hbc

theorem pyStrLe_total : ∀ (a b : String), (pyStrLe a b || pyStrLe b a) = true := by
  intro a b
  rcases le_total a b with h | h
  · rw [pyStrLe_iff.mpr h, Bool.true_or]
  · rw [pyStrLe_iff.mpr h, Bool.or_true]

/-! ### Lemmas about `List.eraseDups` -/

theorem eraseDups_loop_mem {α : Type} [BEq α] [LawfulBEq α] :
    ∀ (as bs : List α) (x : α), x ∈ List.eraseDups.loop as bs → x ∈ as ∨ x ∈ bs
  | [], bs, x => by
    intro h
    rw [List.eraseDups.loop, List.mem_reverse] at h
    exact Or.inr h
  | a :: as, bs, x => by
    intro h
    rw [List.eraseDups.loop] at h
    split at h
    · rcases eraseDups_loop_mem as bs x h with h' | h'
      · exact Or.inl (List.mem_cons_of_mem a h')
      · exact Or.inr h'
    · rcases eraseDups_loop_mem as (a :: bs) x h with h' | h'
      · exact Or.inl (List.mem_cons_of_mem a h')
      · rcases List.mem_cons.mp h' with h'' | h''
        · exact Or.inl (h'' ▸ List.mem_cons_self x as)
        · exact Or.inr h''

theorem eraseDups_loop_nodup {α : Type} [BEq α] [LawfulBEq α] :
    ∀ (as bs : List α), bs.Nodup → (List.eraseDups.loop as bs).Nodup
  | [], bs => by
    intro h
    rw [List.eraseDups.loop]
    exact List.nodup_reverse.mpr h
  | a :: as, bs => by
    intro h
    rw [List.eraseDups.loop]
    split
    · exact eraseDups_loop_nodup as bs h
    · next helem =>
      refine eraseDups_loop_nodup as (a :: bs) (List.nodup_cons.mpr ⟨?_, h⟩)
      intro hmem
      rw [← @List.elem_iff _ _ _ a bs] at hmem
      rw [hmem] at helem
      cases helem

theorem eraseDups_mem {α : Type} [BEq α] [LawfulBEq α] {l : List α} {x : α} :
    x ∈ l.eraseDups → x ∈ l := by
  intro h
  rcases eraseDups_loop_mem l [] x h with h' | h'
  · exact h'
  · cases h'

theorem eraseDups_nodup {α : Type} [BEq α] [LawfulBEq α] (l : List α) : l.eraseDups.Nodup :=
  eraseDups_loop_nodup l [] List.nodup_nil

/-! ### Membership in the processed dataset -/

theorem mem_processed_iff {isoweek : SimpleDate → Int} {cy : Int} {recs : List RawRecord}
    {r : CanonicalRow} :
    r ∈ _get_processed_data isoweek cy recs ↔
      r ∈ ((recs.map (toCanonicalRow isoweek)).filter (yearFilter cy)).filter accountNotNull := by
  rw [_get_processed_data, List.mem_mergeSort]

theorem processed_account_isSome {isoweek : SimpleDate → Int} {cy : Int}
    {recs : List RawRecord} {r : CanonicalRow}
    (hr : r ∈ _get_processed_data isoweek cy recs) : ∃ a, r.accountCode = some a := by
  rw [mem_processed_iff] at hr
  have h := (List.mem_filter.mp hr).2
  rw [accountNotNull] at h
  exact Option.isSome_iff_exists.mp h

theorem processed_year_bounds {isoweek : SimpleDate → Int} {cy : Int}
    {recs : List RawRecord} {r : CanonicalRow}
    (hr : r ∈ _get_processed_data isoweek cy recs) :
    ∃ y, r.year = some y ∧ 2015 ≤ y ∧ y ≤ cy := by
  rw [mem_processed_iff] at hr
  have h := (List.mem_filter.mp (List.mem_filter.mp hr).1).2
  rw [yearFilter] at h
  cases hy : r.year with
  | none => rw [hy] at h; cases h
  | some y =>
    rw [hy] at h
    rw [Bool.and_eq_true, decide_eq_true_eq, decide_eq_true_eq] at h
    exact ⟨y, rfl, h.1, h.2⟩

/-! ### Sample data used by the closed witness and counterexample theorems -/

/-- Arbitrary stand-in for the ISO-week computation in concrete runs. -/
def iw0 : SimpleDate → Int := fun _ => 19

/-- A record matching the spec scenario: account `ABC-001`, created date
2022-05-10, quantity 12, total price 1000. -/
def recABC : RawRecord where
  name := some "CP-1"
  accountCode := some "ABC-001"
  stoneColorType := some "Grey"
  stockKeepingUnit := some "SKU-1"
  family := some "Paving"
  segment := some "Garden"
  createdDate := some ⟨2022, 5, 10⟩
  contractName := some "C-1"
  productDiscription := none
  length := some 60
  width := some 40
  height := some 5
  quantity := some 12
  crates := none
  m2 := none
  m3 := none
  tons := none
  cont := none
  salesPrice := some 25
  chargeUnitPI := none
  totalPriceUSD := some 1000

/-- The same record with a negative raw quantity. -/
def recNeg : RawRecord := { recABC with quantity := some (-5) }

/-! ### C1 -/

/-- C1: every row of the Normalized Dataset produced by
`_get_processed_data` has a non-null account code and a year `y` with
`2015 ≤ y ≤ current_year`; rows with a null year never appear. -/
theorem C1_membership_invariant (isoweek : SimpleDate → Int) (cy : Int)
    (recs : List RawRecord) (r : CanonicalRow)
    (hr : r ∈ _get_processed_data isoweek cy recs) :
    ∃ a y, r.accountCode = some a ∧ r.year = some y ∧ 2015 ≤ y ∧ y ≤ cy := by
  obtain ⟨a, ha⟩ := processed_account_isSome hr
  obtain ⟨y, hy, h₁, h₂⟩ := processed_year_bounds hr
  exact ⟨a, y, ha, hy, h₁, h₂⟩

theorem C1_membership_invariant_witness :
    ∃ a y, (toCanonicalRow iw0 recABC).accountCode = some a ∧
      (toCanonicalRow iw0 recABC).year = some y ∧ 2015 ≤ y ∧ y ≤ 2025 :=
  C1_membership_invariant iw0 2025 [recABC] (toCanonicalRow iw0 recABC) (by
    rw [mem_processed_iff]
    simp [toCanonicalRow, yearFilter, accountNotNull, recABC, iw0])

/-! ### C3 -/

/-- C3 (counterexample): a raw quantity of `-5` on an otherwise valid
record survives into the Normalized Dataset as the negative integer `-5`,
so quantities are not non-negative as claimed. -/
theorem C3_counterexample :
    ((_get_processed_data iw0 2025 [recNeg]).map fun r => r.quantity) = [-5] ∧
    ¬ (∀ r ∈ _get_processed_data iw0 2025 [recNeg], 0 ≤ r.quantity) := by
  have hlist : _get_processed_data iw0 2025 [recNeg] = [toCanonicalRow iw0 recNeg] := by
    rw [_get_processed_data]
    simp [toCanonicalRow, yearFilter, accountNotNull, recNeg, recABC, iw0]
  have hq : (toCanonicalRow iw0 recNeg).quantity = -5 := by
    show truncToZero ((recNeg.quantity).getD 0) = -5
    rw [show recNeg.quantity = some (-5) from rfl]
    rw [truncToZero]
    have h5 : ((-5 : ℚ)) = ((-5 : ℤ) : ℚ) := by norm_num
    rw [show (Option.some (-5 : ℚ)).getD 0 = (-5 : ℚ) from rfl, h5, Int.ceil_intCast]
    norm_num
  constructor
  · rw [hlist, List.map_cons, List.map_nil, hq]
  · intro hall
    have h := hall (toCanonicalRow iw0 recNeg) (by rw [hlist]; exact List.mem_singleton_self _)
    rw [hq] at h
    norm_num at h

/-- C3 (amended): every row of the Normalized Dataset carries an integer
quantity that is never null; a null (or unparseable) raw quantity is
coerced to `0`; but a negative raw quantity is kept as a negative
integer. -/
theorem C3_amended_quantity (isoweek : SimpleDate → Int) (cy : Int) (recs : List RawRecord) :
    ∀ r ∈ _get_processed_data isoweek cy recs,
      ∃ rec ∈ recs, r = toCanonicalRow isoweek rec ∧
        r.quantity = truncToZero (rec.quantity.getD 0) ∧
        (rec.quantity = none → r.quantity = 0) := by
  intro r hr
  rw [mem_processed_iff] at hr
  have hr2 := (List.mem_filter.mp (List.mem_filter.mp hr).1).1
  obtain ⟨rec, hrec, rfl⟩ := List.mem_map.mp hr2
  refine ⟨rec, hrec, rfl, rfl, ?_⟩
  intro hq
  show truncToZero (rec.quantity.getD 0) = 0
  rw [hq]
  rw [truncToZero]
  norm_num

theorem C3_amended_quantity_witness :
    ∃ rec ∈ [recABC], toCanonicalRow iw0 recABC = toCanonicalRow iw0 rec ∧
      (toCanonicalRow iw0 recABC).quantity = truncToZero (rec.quantity.getD 0) ∧
      (rec.quantity = none → (toCanonicalRow iw0 recABC).quantity = 0) :=
  C3_amended_quantity iw0 2025 [recABC] (toCanonicalRow iw0 recABC) (by
    rw [mem_processed_iff]
    simp [toCanonicalRow, yearFilter, accountNotNull, recABC, iw0])

/-! ### C4 -/

/-- The adjacent-row sort law the spec states for the Normalized
Dataset. -/
def sortLawP (a b : CanonicalRow) : Prop :=
  ∃ ca cb ya yb, a.accountCode = some ca ∧ b.accountCode = some cb ∧
    a.year = some ya ∧ b.year = some yb ∧
    (ca < cb ∨ (ca = cb ∧ yb ≤ ya))

/-- C4: for any two adjacent rows `(a, b)` of the Normalized Dataset,
either `a`'s account code is strictly below `b`'s in case-sensitive
lexical string order, or the account codes are equal and `a.year ≥
b.year`. -/
theorem C4_sort_law (isoweek : SimpleDate → Int) (cy : Int) (recs : List RawRecord) :
    List.Chain' sortLawP (_get_processed_data isoweek cy recs) := by
  have hp := @List.sorted_mergeSort CanonicalRow rowLe rowLe_trans rowLe_total
      (((recs.map (toCanonicalRow isoweek)).filter (yearFilter cy)).filter accountNotNull)
  refine List.Pairwise.chain' (List.Pairwise.imp_of_mem ?_ hp)
  intro a b ha hb hle
  have ha' : a ∈ _get_processed_data isoweek cy recs := by
    rw [_get_processed_data]; exact ha
  have hb' : b ∈ _get_processed_data isoweek cy recs := by
    rw [_get_processed_data]; exact hb
  obtain ⟨ca, hca⟩ := processed_account_isSome ha'
  obtain ⟨cb, hcb⟩ := processed_account_isSome hb'
  obtain ⟨ya, hya, -, -⟩ := processed_year_bounds ha'
  obtain ⟨yb, hyb, -, -⟩ := processed_year_bounds hb'
  refine ⟨ca, cb, ya, yb, hca, hcb, hya, hyb, ?_⟩
  rw [rowLe_iff] at hle
  simp only [keyCmp, rowKey, hca, hcb, hya, hyb] at hle
  simp only [ne_eq, then_eq_gt] at hle
  push_neg at hle
  obtain ⟨hle₁, hle₂⟩ := hle
  cases h₁ : cmpOptStr (some ca) (some cb) with
  | gt => exact absurd h₁ hle₁
  | lt =>
    rw [cmpOptStr] at h₁
    exact Or.inl (cmpStr_lt_iff.mp h₁)
  | eq =>
    refine Or.inr ⟨cmpStr_eq_iff.mp (by rw [← cmpOptStr] at h₁; exact h₁), ?_⟩
    obtain ⟨h₂₁, -⟩ := hle₂ h₁
    cases h₃ : cmpOptIntDesc (some ya) (some yb) with
    | gt => exact absurd h₃ h₂₁
    | lt =>
      rw [cmpOptIntDesc, cmpLin_lt_iff] at h₃
      exact le_of_lt h₃
    | eq =>
      rw [cmpOptIntDesc, cmpLin_eq_iff] at h₃
      exact le_of_eq h₃

/-! ### C5 -/

/-- C5: the sort is stable — for any fixed sort key (account code, year,
month), the rows of the Normalized Dataset carrying that key appear in
exactly the order in which the transform step emitted them from the record
batch (map then filters preserve batch order). -/
theorem C5_sort_stable (isoweek : SimpleDate → Int) (cy : Int) (recs : List RawRecord)
    (k : Option String × Option Int × Option Int) :
    (_get_processed_data isoweek cy recs).filter (fun r => decide (rowKey r = k))
      = (((recs.map (toCanonicalRow isoweek)).filter (yearFilter cy)).filter
          accountNotNull).filter (fun r => decide (rowKey r = k)) := by
  set l := ((recs.map (toCanonicalRow isoweek)).filter (yearFilter cy)).filter accountNotNull
    with hl
  set p : CanonicalRow → Bool := fun r => decide (rowKey r = k) with hp
  rw [_get_processed_data, ← hl]
  have hpair : (l.filter p).Pairwise (fun a b => rowLe a b = true) := by
    refine List.pairwise_of_forall_mem_list ?_
    intro a ha b hb
    have hka : rowKey a = k := by
      have h := (List.mem_filter.mp ha).2
      rwa [hp, decide_eq_true_eq] at h
    have hkb : rowKey b = k := by
      have h := (List.mem_filter.mp hb).2
      rwa [hp, decide_eq_true_eq] at h
    rw [rowLe_iff, hka, hkb, keyCmp_eq_iff.mpr rfl]
    intro h
    cases h
  have hsub : List.Sublist (l.filter p) (l.mergeSort rowLe) :=
    List.sublist_mergeSort rowLe_trans rowLe_total hpair (List.filter_sublist l)
  have hff : (l.filter p).filter p = l.filter p := by
    rw [List.filter_filter]
    exact List.filter_congr (fun a _ => Bool.and_self (p a))
  have hsub2 : List.Sublist (l.filter p) ((l.mergeSort rowLe).filter p) := by
    have h₂ := hsub.filter p
    rwa [hff] at h₂
  have hlen : (l.filter p).length = ((l.mergeSort rowLe).filter p).length := by
    rw [← List.countP_eq_length_filter, ← List.countP_eq_length_filter]
    exact ((List.mergeSort_perm l rowLe).countP_eq p).symm
  exact (hsub2.eq_of_length hlen).symm

/-! ### C6 -/

/-- C6: with a valid (non-blank) account argument, an empty dataset or an
empty post-filter subset makes each analytics entry point return a success
result with an empty collection and an explanatory message, never a
failure. -/
theorem C6_empty_success (df : List CanonicalRow) (acc : String) (year : Option Int)
    (hacc : pyStrip acc ≠ "") (hempty : _filter_by_account df acc = []) :
    ((get_customer_products df acc year).success = true ∧
      (get_customer_products df acc year).products = [] ∧
      (get_customer_products df acc year).message.isSome = true ∧
      (get_customer_products df acc year).error = none) ∧
    ((get_contract_details_by_account df acc).success = true ∧
      (get_contract_details_by_account df acc).data = [] ∧
      (get_contract_details_by_account df acc).message.isSome = true ∧
      (get_contract_details_by_account df acc).error = none) ∧
    ((get_all_customers_list df).success = true ∧
      (df = [] → (get_all_customers_list df).customers = [] ∧
        (get_all_customers_list df).message.isSome = true) ∧
      (get_all_customers_list df).error = none) := by
  refine ⟨?_, ?_, ?_, ?_, ?_⟩
  · simp [get_customer_products, hacc, hempty]
  · by_cases hdf : df.isEmpty <;>
      simp [get_contract_details_by_account, hacc, hempty, hdf]
  · by_cases hdf : df.isEmpty <;> simp [get_all_customers_list, hdf]
  · intro hdfeq
    subst hdfeq
    simp [get_all_customers_list]
  · by_cases hdf : df.isEmpty <;> simp [get_all_customers_list, hdf]

theorem C6_empty_success_witness :
    (pyStrip "ABC-001" ≠ "" ∧ _filter_by_account ([] : List CanonicalRow) "ABC-001" = []) ∧
    (get_customer_products [] "ABC-001" none).success = true ∧
    (get_contract_details_by_account [] "ABC-001").success = true ∧
    (get_all_customers_list ([] : List CanonicalRow)).success = true :=
  ⟨⟨by decide, rfl⟩,
   (C6_empty_success [] "ABC-001" none (by decide) rfl).1.1,
   (C6_empty_success [] "ABC-001" none (by decide) rfl).2.1.1,
   (C6_empty_success [] "ABC-001" none (by decide) rfl).2.2.1⟩

/-! ### C9 -/

/-- A normalised row for account `a`, used by the concrete theorems about
the year-zero behaviour and the customers list. -/
def rowA : CanonicalRow where
  accountCode := some "a"
  stoneColorType := none
  productSKU := some "SKU-9"
  contractProductName := none
  year := some 2022
  month := some 5
  quarter := some 2
  monthNameCol := some "May"
  weekOfYear := some 19
  productDescription := none
  length := none
  width := none
  height := none
  quantity := 3
  crates := none
  m2 := none
  m3 := none
  tons := none
  cont := none
  salesPrice := none
  totalPriceUSD := some 100
  chargeUnit := none
  productFamily := some "Paving"
  segment := none
  contractNameCol := none
  createdDateDisplay := some "10/05/2022"
  createdDateRaw := some ⟨2022, 5, 10⟩

/-- C9 (counterexample): with a non-empty match, calling
`get_customer_products` with `year = 0` does not return exactly the same
result as omitting the year — the echoed `year` field is `0` in one case
and null in the other. -/
theorem C9_counterexample :
    get_customer_products [rowA] "a" (some 0) ≠ get_customer_products [rowA] "a" none := by
  have hne : ¬ (pyStrip "a" = "") := by decide
  have hfilter : _filter_by_account [rowA] "a" = [rowA] := by
    rw [_filter_by_account]
    simp [pandasStr, rowA]
  have h0 : (get_customer_products [rowA] "a" (some 0)).year = some 0 := by
    rw [get_customer_products, if_neg hne]
    simp [hfilter, yearTruthy, productsSuccess]
  have hN : (get_customer_products [rowA] "a" none).year = none := by
    rw [get_customer_products, if_neg hne]
    simp [hfilter, yearTruthy, productsSuccess]
  intro h
  have hy := congrArg ProductsResult.year h
  rw [h0, hN] at hy
  cases hy

/-- C9 (amended): `year = 0` applies no year filtering — every component
of the result (success flag, products, count, summary, message, error,
account code) coincides with the year-omitted call, and the
`no products found in year 0` outcome is unreachable; only the echoed
`year` field differs (`0` versus null). -/
theorem C9_amended_year_zero (df : List CanonicalRow) (acc : String) :
    ((get_customer_products df acc (some 0)).success
        = (get_customer_products df acc none).success) ∧
    ((get_customer_products df acc (some 0)).products
        = (get_customer_products df acc none).products) ∧
    ((get_customer_products df acc (some 0)).count
        = (get_customer_products df acc none).count) ∧
    ((get_customer_products df acc (some 0)).summary
        = (get_customer_products df acc none).summary) ∧
    ((get_customer_products df acc (some 0)).message
        = (get_customer_products df acc none).message) ∧
    ((get_customer_products df acc (some 0)).error
        = (get_customer_products df acc none).error) ∧
    ((get_customer_products df acc (some 0)).account_code
        = (get_customer_products df acc none).account_code) := by
  have h0 : yearTruthy (some 0) = false := by decide
  have hN : yearTruthy none = false := rfl
  unfold get_customer_products
  simp only [h0, hN, Bool.false_eq_true, if_false]
  split_ifs <;> simp [productsSuccess]

/-! ### C10 -/

/-- C10: a non-empty successful customers list is duplicate-free, sorted
ascending, contains only values present (non-null) in the account-code
column, and its `count` field is its length. -/
theorem C10_customers_list (df : List CanonicalRow)
    (h : (get_all_customers_list df).customers ≠ []) :
    (get_all_customers_list df).success = true ∧
    (get_all_customers_list df).customers.Pairwise (fun a b => a ≤ b) ∧
    (get_all_customers_list df).customers.Nodup ∧
    (get_all_customers_list df).count = (get_all_customers_list df).customers.length ∧
    ∀ c ∈ (get_all_customers_list df).customers,
      some c ∈ df.map (fun r => r.accountCode) := by
  by_cases hdf : df.isEmpty
  · exfalso
    apply h
    rw [get_all_customers_list, if_pos hdf]
  · rw [get_all_customers_list, if_neg hdf]
    set base := ((df.map (fun r => r.accountCode)).eraseDups).filterMap id with hbase
    refine ⟨rfl, ?_, ?_, rfl, ?_⟩
    · have hs := @List.sorted_mergeSort String pyStrLe pyStrLe_trans pyStrLe_total base
      exact hs.imp (fun hab => pyStrLe_iff.mp hab)
    · have hnd : base.Nodup := by
        refine List.Nodup.filterMap ?_ (eraseDups_nodup _)
        intro a a' b hb hb'
        cases hb
        cases hb'
        rfl
      exact ((List.mergeSort_perm base pyStrLe).symm).nodup hnd
    · intro c hc
      rw [List.mem_mergeSort, hbase, List.mem_filterMap] at hc
      obtain ⟨o, ho, hoc⟩ := hc
      cases hoc
      exact eraseDups_mem ho

theorem C10_customers_list_witness :
    (get_all_customers_list [rowA]).customers ≠ [] ∧
    ((get_all_customers_list [rowA]).success = true ∧
      (get_all_customers_list [rowA]).customers.Nodup ∧
      (get_all_customers_list [rowA]).count
        = (get_all_customers_list [rowA]).customers.length) := by
  have hne : (get_all_customers_list [rowA]).customers ≠ [] := by
    simp [get_all_customers_list, List.eraseDups, List.eraseDups.loop, rowA]
  have hmain := C10_customers_list [rowA] hne
  exact ⟨hne, hmain.1, hmain.2.2.1, hmain.2.2.2.1⟩

/-! ### C2 -/

/-- C2: any grouping-field name outside the closed four-element set is
rejected with a failure result that lists the four valid names, and the
result does not depend on the record source (no fetch is performed). -/
theorem C2_invalid_grouping_field (field : String) (h : field ∉ validGroupingFields)
    (isoweek : SimpleDate → Int) (cy : Int) (recs recs' : List RawRecord) :
    (get_top_items_summary isoweek cy recs field).success = false ∧
    (get_top_items_summary isoweek cy recs field).valid_fields
      = some ["account code", "product family", "product SKU", "stone color type"] ∧
    (get_top_items_summary isoweek cy recs field).error.isSome = true ∧
    get_top_items_summary isoweek cy recs field
      = get_top_items_summary isoweek cy recs' field := by
  rw [get_top_items_summary, if_neg h, get_top_items_summary, if_neg h]
  exact ⟨rfl, rfl, rfl, rfl⟩

theorem C2_invalid_grouping_field_witness :
    "Invalid Field" ∉ validGroupingFields ∧
    (get_top_items_summary iw0 2025 [recABC] "Invalid Field").success = false ∧
    (get_top_items_summary iw0 2025 [recABC] "Invalid Field").valid_fields
      = some ["account code", "product family", "product SKU", "stone color type"] :=
  ⟨by decide,
   (C2_invalid_grouping_field "Invalid Field" (by decide) iw0 2025 [recABC] []).1,
   (C2_invalid_grouping_field "Invalid Field" (by decide) iw0 2025 [recABC] []).2.1⟩

/-! ### C7 -/

/-- A row with quantity `0` but a non-null price, exhibiting the
difference between the code's ratio and the spec's. -/
def rowQ0 : CanonicalRow :=
  { rowA with accountCode := some "acc7", quantity := 0, totalPriceUSD := some 10 }

/-- C7 (counterexample): on a one-row group with quantity sum `0` and
total price `10`, the code's reported average is `10` (total price over
row count) while the claimed formula (`total_price_sum / quantity_sum`,
else `0`) gives `0`, so the claim fails on the code. -/
theorem C7_counterexample :
    ((get_customer_summary_stats [rowQ0] "acc7").summary.map fun s => s.avg_order_value_usd)
      = some 10 ∧
    round2 (claimedAvgUnitPrice (_filter_by_account [rowQ0] "acc7")) = 0 ∧
    ((get_customer_summary_stats [rowQ0] "acc7").summary.map fun s => s.avg_order_value_usd)
      ≠ some (round2 (claimedAvgUnitPrice (_filter_by_account [rowQ0] "acc7"))) := by
  have hne : ¬ (pyStrip "acc7" = "") := by decide
  have hfilter : _filter_by_account [rowQ0] "acc7" = [rowQ0] := by
    rw [_filter_by_account]
    simp [pandasStr, rowQ0, rowA]
  have hr10 : round2 (10 : ℚ) = 10 := by
    rw [round2]
    norm_num [round_eq]
  have havg : avg_order_value [rowQ0] = 10 := by
    rw [avg_order_value]
    simp [sumOpt, rowQ0, rowA]
  have h1 : ((get_customer_summary_stats [rowQ0] "acc7").summary.map
      fun s => s.avg_order_value_usd) = some 10 := by
    rw [get_customer_summary_stats, if_neg hne]
    simp [hfilter, havg, hr10]
  have hclaim : claimedAvgUnitPrice (_filter_by_account [rowQ0] "acc7") = 0 := by
    rw [hfilter, claimedAvgUnitPrice]
    simp [rowQ0, rowA]
  have h2 : round2 (claimedAvgUnitPrice (_filter_by_account [rowQ0] "acc7")) = 0 := by
    rw [hclaim, round2]
    norm_num [round_eq]
  refine ⟨h1, h2, ?_⟩
  rw [h1, h2]
  intro hcontra
  rw [Option.some_inj] at hcontra
  norm_num at hcontra

/-- C7 (amended): the guarded ratio in `get_customer_summary_stats` is the
average order value — the total price sum divided by the row count of the
account-filtered dataset (positive on the reached branch, so the guard
never divides by zero) — and the reported summary is never null on that
branch; the denominator is the row count, not the quantity sum. -/
theorem C7_amended_avg_order_value (df : List CanonicalRow) (acc : String)
    (hacc : pyStrip acc ≠ "") (hne : _filter_by_account df acc ≠ []) :
    ∃ s, (get_customer_summary_stats df acc).summary = some s ∧
      0 < (_filter_by_account df acc).length ∧
      s.avg_order_value_usd
        = round2 (sumOpt ((_filter_by_account df acc).map fun r => r.totalPriceUSD)
            / ((_filter_by_account df acc).length : ℚ)) := by
  have hlen : 0 < (_filter_by_account df acc).length := List.length_pos.mpr hne
  have hie : (_filter_by_account df acc).isEmpty = false := by
    rw [List.isEmpty_eq_false]
    exact hne
  rw [get_customer_summary_stats, if_neg hacc]
  simp only [hie, Bool.false_eq_true, if_false]
  refine ⟨_, rfl, hlen, ?_⟩
  rw [avg_order_value, if_pos hlen]

theorem C7_amended_avg_order_value_witness :
    (pyStrip "acc7" ≠ "" ∧ _filter_by_account [rowQ0] "acc7" ≠ []) ∧
    (∃ s, (get_customer_summary_stats [rowQ0] "acc7").summary = some s ∧
      0 < (_filter_by_account [rowQ0] "acc7").length ∧
      s.avg_order_value_usd
        = round2 (sumOpt ((_filter_by_account [rowQ0] "acc7").map fun r => r.totalPriceUSD)
            / ((_filter_by_account [rowQ0] "acc7").length : ℚ))) := by
  have h1 : pyStrip "acc7" ≠ "" := by decide
  have hf : _filter_by_account [rowQ0] "acc7" = [rowQ0] := by
    rw [_filter_by_account]
    simp [pandasStr, rowQ0, rowA]
  have h2 : _filter_by_account [rowQ0] "acc7" ≠ [] := by
    rw [hf]
    simp
  exact ⟨⟨h1, h2⟩, C7_amended_avg_order_value [rowQ0] "acc7" h1 h2⟩

/-! ### C8 -/

/-- C8: every percentage-of-total reported by the quarter, month and
season groupings equals `round(group_count / total_count * 100, 2)`, where
`total_count` is the row count of the account-filtered dataset (not of the
full pipeline output). -/
theorem C8_percentage_of_filtered_total (df : List CanonicalRow) (acc : String)
    (hacc : pyStrip acc ≠ "") (hne : _filter_by_account df acc ≠ []) :
    (∀ e ∈ (get_customer_order_patterns df acc).by_quarter,
        e.percentage_of_annual_orders
          = round2 ((e.total_orders : ℚ) / ((_filter_by_account df acc).length : ℚ) * 100)) ∧
    (∀ e ∈ (get_customer_order_patterns df acc).by_month,
        e.percentage_of_annual_orders
          = round2 ((e.total_orders : ℚ) / ((_filter_by_account df acc).length : ℚ) * 100)) ∧
    (∀ e ∈ (get_customer_seasonal_analysis df acc).seasonal_patterns,
        e.percentage_of_annual_orders
          = round2 ((e.total_orders : ℚ) / ((_filter_by_account df acc).length : ℚ) * 100)) := by
  have hie : (_filter_by_account df acc).isEmpty = false := by
    rw [List.isEmpty_eq_false]
    exact hne
  refine ⟨?_, ?_, ?_⟩
  · intro e he
    rw [get_customer_order_patterns, if_neg hacc] at he
    simp only [hie, Bool.false_eq_true, if_false] at he
    rw [List.mem_map] at he
    obtain ⟨b, -, rfl⟩ := he
    rfl
  · intro e he
    rw [get_customer_order_patterns, if_neg hacc] at he
    simp only [hie, Bool.false_eq_true, if_false] at he
    rw [List.mem_filterMap] at he
    obtain ⟨m, -, hf⟩ := he
    split at hf
    · cases hf
    · cases hf
      rfl
  · intro e he
    rw [get_customer_seasonal_analysis, if_neg hacc] at he
    simp only [hie, Bool.false_eq_true, if_false] at he
    rw [List.mem_map] at he
    obtain ⟨b, -, rfl⟩ := he
    rfl

theorem C8_percentage_of_filtered_total_witness :
    (pyStrip "acc7" ≠ "" ∧ _filter_by_account [rowQ0] "acc7" ≠ []) ∧
    (∀ e ∈ (get_customer_order_patterns [rowQ0] "acc7").by_quarter,
        e.percentage_of_annual_orders
          = round2 ((e.total_orders : ℚ)
              / ((_filter_by_account [rowQ0] "acc7").length : ℚ) * 100)) := by
  have h1 : pyStrip "acc7" ≠ "" := by decide
  have hf : _filter_by_account [rowQ0] "acc7" = [rowQ0] := by
    rw [_filter_by_account]
    simp [pandasStr, rowQ0, rowA]
  have h2 : _filter_by_account [rowQ0] "acc7" ≠ [] := by
    rw [hf]
    simp
  exact ⟨⟨h1, h2⟩, (C8_percentage_of_filtered_total [rowQ0] "acc7" h1 h2).1⟩

end SF
